import Mathlib

/-!
Verification development for the RAG incident pipeline of this repository
(src/rag.py and src/rag/rag2.py), as a shallow embedding in Lean.

Conventions of the embedding:
- A pandas DataFrame is a list of rows; a missing value (NaN/None) in a
  string column is Option.none, an empty string is Option.some "".
- Timestamp columns are modelled after the pd.to_datetime(..., errors =
  coerce) step: a cell holds Option.some of the parsed time (as rational
  seconds since an arbitrary epoch) or Option.none for NaT (missing or
  unparsable).  The wall clock used by fillna(Timestamp(now)) is passed
  explicitly as the parameter now.
- Remote services (the ollama embedding and chat endpoints, the OpenAI
  embedding endpoint) are external collaborators, passed as oracles:
  an embedding oracle returns Option (rag.py swallows embedding failures
  into None) or Except (rag2.py re-raises), a chat oracle returns Except.
- The pgvector cosine-distance operator of the database is likewise an
  external operator, passed as an oracle cosDist; both SQL queries use it
  only through ORDER BY and threshold predicates, which are embedded as
  sorting and filtering of the table rows.  similarity = 1 - cosDist.
- Python exceptions are Except values; a Python function that catches all
  exceptions internally is a total function in the model.
-/

/-- Fixed-length numeric vector produced by an embedding model. -/
abbrev Vec := List ℚ

/-- Truthiness of a stripped Python string: True iff some character is not
whitespace.  Models the checks of the form not text.strip(). -/
def strBlank (s : String) : Bool := s.data.all (fun c => c.isWhitespace)

/-- Code-point lexicographic comparison on character lists (the order Python
and pandas use when sorting strings). -/
def charsLt : List Char → List Char → Bool
  | _, [] => false
  | [], _ :: _ => true
  | a :: as, b :: bs =>
    if a.toNat < b.toNat then true
    else if b.toNat < a.toNat then false
    else charsLt as bs

/-- Code-point lexicographic comparison on strings. -/
def strLtB (a b : String) : Bool := charsLt a.data b.data

/-- Smaller of two strings in code-point lexicographic order. -/
def strMin (a b : String) : String := if strLtB a b then a else b

/-- Largest multiplicity of any element of the list. -/
def maxMultiplicity (l : List String) : ℕ :=
  (l.map (fun v => l.count v)).foldl (fun a b => if a ≤ b then b else a) 0

/-- First element of the pandas Series.mode() of a list of (non-missing)
string values: among the values of maximal multiplicity, the smallest in
lexicographic order (pandas returns the modes sorted ascending).  Returns ""
on the empty list, where pandas would return an empty mode series. -/
def pandasMode (l : List String) : String :=
  match l.filter (fun v => l.count v = maxMultiplicity l) with
  | [] => ""
  | x :: xs => xs.foldl strMin x

/-- Models Series.fillna(d).replace(emptyString, d): a missing cell and an
empty-string cell both become d, any other cell is kept. -/
def fillWith (d : String) : Option String → String
  | none => d
  | some s => if s = "" then d else s

/-- Worker for drop_duplicates: walks the list keeping the first row for
each key value, carrying the set of keys already seen. -/
def drop_dup_go {α β : Type} [DecidableEq β] (key : α → β) (seen : List β) :
    List α → List α
  | [] => []
  | x :: xs =>
    if key x ∈ seen then drop_dup_go key seen xs
    else x :: drop_dup_go key (key x :: seen) xs

/-- Models DataFrame.drop_duplicates(subset, keep = first): collapses rows
with an equal key, keeping the first occurrence, preserving order. -/
def drop_duplicates {α β : Type} [DecidableEq β] (key : α → β) (l : List α) :
    List α :=
  drop_dup_go key [] l

/-- One raw CSV row of synthetic_team_data.csv as read by read_file in
src/rag.py, restricted to the five columns in column_names.  The two date
columns are already in post-to_datetime form (see the file comment). -/
structure RawRow where
  close_notes : Option String
  description : Option String
  u_resolution_tier_2 : Option String
  resolved_at : Option ℚ
  sys_created_on : Option ℚ

/-- One row of the DataFrame returned by preprocess_data in src/rag.py:
all text columns filled, both timestamps present, and the derived
resolution_time_hours column attached. -/
structure CleanRow where
  close_notes : String
  description : String
  u_resolution_tier_2 : String
  sys_created_on : ℚ
  resolved_at : ℚ
  resolution_time_hours : ℚ

/-- The dedup key used at line 58 of src/rag.py:
drop_duplicates(subset = [close_notes, description]). -/
def dedupKey (r : CleanRow) : String × String := (r.close_notes, r.description)

/-- preprocess_data of src/rag.py.  Computes the mode of the category
column (pandas mode drops NaN but keeps empty strings), raises when the
mode series is empty (re-raised by the outer handler as the generic
preprocessing ValueError), fills the category column with the mode and the
two text columns with "Unknown" (fillna plus replace of the empty string),
defaults both timestamps to now, derives resolution_time_hours clamped to a
minimum of 0.1, and finally drops duplicate (close_notes, description)
pairs keeping the first occurrence.  cleanRow is the per-row part of the
column transformations. -/
def cleanRow (mode_value : String) (now : ℚ) (r : RawRow) : CleanRow :=
  let created := r.sys_created_on.getD now
  let resolved := r.resolved_at.getD now
  { close_notes := fillWith "Unknown" r.close_notes
    description := fillWith "Unknown" r.description
    u_resolution_tier_2 := fillWith mode_value r.u_resolution_tier_2
    sys_created_on := created
    resolved_at := resolved
    resolution_time_hours := max ((resolved - created) / 3600) (1 / 10) }

/-- The full preprocessing pipeline of src/rag.py (see the doc comment of
cleanRow for the per-row fills): mode check, column fills, duration
derivation, then deduplication. -/
def preprocess_data (df : List RawRow) (now : ℚ) :
    Except String (List CleanRow) :=
  match df.filterMap (fun r => r.u_resolution_tier_2) with
  | [] => Except.error "Preprocessing failed: Unable to process DataFrame"
  | v :: vs =>
    Except.ok <| drop_duplicates dedupKey
      <| df.map (cleanRow (pandasMode (v :: vs)) now)

/-- A chat-completion oracle: takes the role-tagged messages sent to
ollama.chat and returns the completion text, or fails. -/
abbrev ChatOracle := List (String × String) → Except String String

/-- The user message that oneline_solution_summary sends to ollama.chat,
with the input text interpolated at the position of the format placeholder. -/
def summaryPrompt (text : String) : String :=
  "\n    Extract key information from the close_notes and format it in one line.\n    Input: "
    ++ text
    ++ "\n    Output format: close_notes Key Phrase: [key phrase]\n    Example:\n    Input: PDF output misalignment in report generation\n    Output: close_notes Key Phrase: PDF output misalignment\n    "

/-- oneline_solution_summary of src/rag.py: returns the fixed placeholder
line when the input is missing, non-textual or blank, and also when the
chat call fails or returns an empty completion; otherwise the stripped
completion text. -/
def oneline_solution_summary (chat : ChatOracle) (text : Option String) :
    String :=
  match text with
  | none => "close_notes Key Phrase: None"
  | some s =>
    if strBlank s then "close_notes Key Phrase: None"
    else
      match chat [("user", summaryPrompt s)] with
      | Except.error _ => "close_notes Key Phrase: None"
      | Except.ok raw =>
        if strBlank raw then "close_notes Key Phrase: None" else raw.trim

/-- generate_vector of src/rag.py: None for a missing, non-textual or blank
input, and None when the embedding service fails (the exception is caught
and swallowed inside the function); otherwise the embedding vector.  The
oracle embed is the remote embedding call, returning none on failure. -/
def generate_vector (embed : String → Option Vec) (text : Option String) :
    Option Vec :=
  match text with
  | none => none
  | some s => if strBlank s then none else embed s

/-- One tuple of the data_to_store list built by store_csvfile_into_database
in src/rag.py. -/
structure DataTuple where
  description_content : String
  summary_content : String
  embedding_description : Vec
  embedding_summary : Vec
  resolution_tier : String
  issue_created_on : ℚ
  issue_resolved : ℚ
  resolution_time_hours : ℚ

/-- One row of the problem_table in the Supabase store, as written by
store_in_supabase in src/rag.py. -/
structure StoredRow where
  id : ℕ
  description_content : String
  summary_content : String
  description_vector : Vec
  solution_vector : Vec
  u_resolution_tier_2 : String
  sys_created_on : ℚ
  resolved_at : ℚ
  resolution_time_hours : ℚ
  is_valid : Bool

/-- The row that iteration idx of the store_in_supabase loop inserts:
identifier idx + 1 and the tuple fields. -/
def mkStored (id : ℕ) (d : DataTuple) : StoredRow :=
  { id := id
    description_content := d.description_content
    summary_content := d.summary_content
    description_vector := d.embedding_description
    solution_vector := d.embedding_summary
    u_resolution_tier_2 := d.resolution_tier
    sys_created_on := d.issue_created_on
    resolved_at := d.issue_resolved
    resolution_time_hours := d.resolution_time_hours
    is_valid := true }

/-- The tuple fields of a stored row, for reading back what was inserted. -/
def storedPayload (s : StoredRow) : DataTuple :=
  { description_content := s.description_content
    summary_content := s.summary_content
    embedding_description := s.description_vector
    embedding_summary := s.solution_vector
    resolution_tier := s.u_resolution_tier_2
    issue_created_on := s.sys_created_on
    issue_resolved := s.resolved_at
    resolution_time_hours := s.resolution_time_hours }

/-- The enumerate loop of store_in_supabase: each iteration issues one
insert against the (already cleared) table.  insertFails idx models the
supabase insert call at index idx raising; the first raising insert stops
the loop with the exception, leaving the rows already inserted in place
(each earlier insert was its own auto-committed request). -/
def store_loop (insertFails : ℕ → Bool) (acc : List StoredRow) (idx : ℕ) :
    List DataTuple → List StoredRow × Option String
  | [] => (acc, none)
  | d :: rest =>
    if insertFails idx then (acc, some "insert failed")
    else store_loop insertFails (acc ++ [mkStored (idx + 1) d]) (idx + 1) rest

/-- store_in_supabase of src/rag.py: clears the whole problem_table (the
prior contents db are discarded), then inserts the tuples one by one with
identifiers 1, 2, ...; any exception is caught by the outer handler, which
only prints, so the function always returns normally with whatever table
state the loop reached. -/
def store_in_supabase (insertFails : ℕ → Bool) (db : List StoredRow)
    (data_list : List DataTuple) : List StoredRow :=
  (store_loop insertFails [] 0 data_list).1

/-- Insertion into a list sorted by the boolean relation le. -/
def insertLe {α : Type} (le : α → α → Bool) (x : α) : List α → List α
  | [] => [x]
  | y :: ys => if le x y then x :: y :: ys else y :: insertLe le x ys

/-- Insertion sort by the boolean relation le; models the ORDER BY of the
SQL queries (ties are left in an arbitrary but fixed order, matching the
documented non-determinism of the database on ties). -/
def sortLe {α : Type} (le : α → α → Bool) : List α → List α
  | [] => []
  | x :: xs => insertLe le x (sortLe le xs)

/-- One row of problem_table as scanned by the search_data SQL query in
src/rag.py (the columns that query reads). -/
structure ProblemRow where
  id : ℕ
  description_content : String
  summary_content : String
  u_resolution_tier_2 : String
  resolution_time_hours : Option ℚ
  description_vector : Vec

/-- One tuple returned by the search_data query of src/rag.py:
(id, description_content, summary_content, u_resolution_tier_2,
resolution_time_hours, similarity), with similarity = 1 - cosine distance. -/
structure SearchRow where
  id : ℕ
  description_content : String
  summary_content : String
  u_resolution_tier_2 : String
  resolution_time_hours : Option ℚ
  similarity : ℚ

/-- The raw SQL query of search_data in src/rag.py: every row of
problem_table, ordered by cosine distance of description_vector to the
query vector ascending (hence similarity descending), truncated by
LIMIT 10.  There is no WHERE clause: no similarity threshold is applied. -/
def search_query (cosDist : Vec → Vec → ℚ) (qv : Vec)
    (table : List ProblemRow) : List SearchRow :=
  ((sortLe (fun a b =>
        cosDist a.description_vector qv ≤ cosDist b.description_vector qv)
      table).map fun r =>
    { id := r.id
      description_content := r.description_content
      summary_content := r.summary_content
      u_resolution_tier_2 := r.u_resolution_tier_2
      resolution_time_hours := r.resolution_time_hours
      similarity := 1 - cosDist r.description_vector qv }).take 10

/-- The body of the try block of search_data in src/rag.py.  When the
query vector is None (embedding failed), building the vector string raises
a TypeError before the query is executed; otherwise the SQL query runs. -/
def search_data_try (embed : String → Option Vec) (cosDist : Vec → Vec → ℚ)
    (table : List ProblemRow) (user_prompt : String) :
    Except String (List SearchRow) :=
  match generate_vector embed (some user_prompt) with
  | none => Except.error "TypeError: NoneType is not iterable"
  | some qv => Except.ok (search_query cosDist qv table)

/-- search_data of src/rag.py: the try body, with every exception caught by
the except handler, which prints and returns the empty list.  The caller
therefore always receives a normal (possibly empty) result list. -/
def search_data (embed : String → Option Vec) (cosDist : Vec → Vec → ℚ)
    (table : List ProblemRow) (user_prompt : String) : List SearchRow :=
  match search_data_try embed cosDist table user_prompt with
  | Except.error _ => []
  | Except.ok res => res

/-- The summary text built for a row by store_csvfile_into_database:
the oneline_solution_summary of the close notes, a space, and the
description. -/
def row_summary (chat : ChatOracle) (r : CleanRow) : String :=
  oneline_solution_summary chat (some r.close_notes) ++ " " ++ r.description

/-- Whether both embeddings of a row succeed in the
store_csvfile_into_database loop (the row is skipped otherwise). -/
def row_embeds_ok (chat : ChatOracle) (embed : String → Option Vec)
    (r : CleanRow) : Bool :=
  (generate_vector embed (some r.description)).isSome
    && (generate_vector embed (some (row_summary chat r))).isSome

/-- The tuple appended to data_to_store for a row whose two embeddings
succeeded. -/
def row_tuple (chat : ChatOracle) (embed : String → Option Vec)
    (r : CleanRow) : Option DataTuple :=
  match generate_vector embed (some r.description),
      generate_vector embed (some (row_summary chat r)) with
  | some ed, some es =>
    some
      { description_content := r.description
        summary_content := row_summary chat r
        embedding_description := ed
        embedding_summary := es
        resolution_tier := r.u_resolution_tier_2
        issue_created_on := r.sys_created_on
        issue_resolved := r.resolved_at
        resolution_time_hours := r.resolution_time_hours }
  | _, _ => none

/-- The row loop of store_csvfile_into_database in src/rag.py: each row
whose description or summary embedding fails is skipped (logged, the loop
continues); every other row contributes its tuple, in order. -/
def build_data_to_store (chat : ChatOracle) (embed : String → Option Vec)
    (rows : List CleanRow) : List DataTuple :=
  rows.filterMap (row_tuple chat embed)

/-- Fixed-point rendering of a rational with prec digits after the point,
modelling the Python format specifiers of the form :.2f and :.3f. -/
def fmtFixed (prec : ℕ) (q : ℚ) : String :=
  let scaled : ℤ := round (q * (10 ^ prec : ℚ))
  let sign := if scaled < 0 then "-" else ""
  let m := scaled.natAbs
  let fs := toString (m % 10 ^ prec)
  sign ++ toString (m / 10 ^ prec) ++ "."
    ++ String.mk (List.replicate (prec - fs.length) '0') ++ fs

/-- The mode fallback computed at line 214 of src/rag.py: the first mode of
the raw (not yet preprocessed) category column, or "Unknown" when the mode
series is empty (all cells missing). -/
def dataset_mode (d : List RawRow) : String :=
  match d.filterMap (fun r => r.u_resolution_tier_2) with
  | [] => "Unknown"
  | v :: vs => pandasMode (v :: vs)

/-- The category update applied when search results exist: the resolution
tier of the top result if it is truthy (present and non-empty), otherwise
the mode fallback. -/
def topTierCategory (mode_category : String) : List SearchRow → String
  | [] => mode_category
  | top :: _ =>
    if top.u_resolution_tier_2 = "" then mode_category
    else top.u_resolution_tier_2

/-- The category resolved by generate_final_response (lines 216-224 of
src/rag.py): it starts as the raw-column mode and is updated from the top
search result only inside the branch guarded by the DataFrame being
non-empty. -/
def resolve_category (d : List RawRow) (results : List SearchRow) : String :=
  match d with
  | [] => dataset_mode d
  | _ :: _ => topTierCategory (dataset_mode d) results

/-- The trending issue percentage of generate_final_response (lines
217-226 of src/rag.py): it stays 0.0 for an empty DataFrame, else it is
the value_counts entry of the resolved category (counted over the raw
category column, missing cells excluded) divided by the total row count,
times 100. -/
def trending_percentage (d : List RawRow) (results : List SearchRow) : ℚ :=
  match d with
  | [] => 0
  | _ :: _ =>
    ((d.filterMap (fun r => r.u_resolution_tier_2)).count
        (resolve_category d results) : ℚ)
      / (d.length : ℚ) * 100

/-- Category resolution as the claim words it: the resolution tier of the
top search result when search results exist and that tier is non-empty,
otherwise the dataset-wide mode category.  Stated from the claim, for
comparison with resolve_category. -/
def claimed_category (d : List RawRow) (results : List SearchRow) : String :=
  match results with
  | [] => dataset_mode d
  | top :: _ =>
    if top.u_resolution_tier_2 = "" then dataset_mode d
    else top.u_resolution_tier_2

/-- Trending percentage as the claim words it: records in the resolved
category over total records, times 100, and 0 for the empty dataset.
Stated from the claim, for comparison with trending_percentage. -/
def claimed_trending (d : List RawRow) (results : List SearchRow) : ℚ :=
  match d with
  | [] => 0
  | _ :: _ =>
    ((d.filterMap (fun r => r.u_resolution_tier_2)).count
        (claimed_category d results) : ℚ)
      / (d.length : ℚ) * 100

/-- The pure tail of calculate_approximate_resolution_time, applied to the
successfully preprocessed DataFrame: resolves the category from the top
search result with the mode of the preprocessed column as fallback, and
averages resolution_time_hours over the rows of that category, returning
None when no rows match. -/
def art_from_pdf (pdf : List CleanRow) (search_results : List SearchRow) :
    Option ℚ :=
  let mode_category :=
    match pdf.map (fun r => r.u_resolution_tier_2) with
    | [] => "Unknown"
    | v :: vs => pandasMode (v :: vs)
  let category :=
    match search_results with
    | [] => mode_category
    | top :: _ =>
      if top.u_resolution_tier_2 = "" then mode_category
      else top.u_resolution_tier_2
  match (pdf.filter fun r => r.u_resolution_tier_2 == category).map
      (fun r => r.resolution_time_hours) with
  | [] => none
  | t :: ts => some ((t :: ts).sum / ((t :: ts).length : ℚ))

/-- calculate_approximate_resolution_time of src/rag.py: returns None when
the CSV could not be read or is empty, otherwise preprocesses the data
(this can raise, and the exception propagates to the caller) and computes
the category average.  The user_prompt parameter is unused, as in the
source. -/
def calculate_approximate_resolution_time (df : Option (List RawRow))
    (now : ℚ) (user_prompt : String) (search_results : List SearchRow) :
    Except String (Option ℚ) :=
  match df with
  | none => Except.ok none
  | some [] => Except.ok none
  | some (r0 :: rs) =>
    (preprocess_data (r0 :: rs) now).map fun pdf =>
      art_from_pdf pdf search_results

/-- The per-result block of context lines built by generate_final_response
for one search result. -/
def resultBlock (mode_category : String) (idx : ℕ) (r : SearchRow) :
    List String :=
  ["Result " ++ toString idx ++ ":",
   "  ID: " ++ toString r.id,
   "  Description: " ++ r.description_content,
   "  Summary: " ++ r.summary_content,
   "  Category: "
     ++ (if r.u_resolution_tier_2 = "" then mode_category
         else r.u_resolution_tier_2),
   (match r.resolution_time_hours with
    | some t => "  Resolution Time (hours): " ++ fmtFixed 2 t
    | none => "  Resolution Time: Unknown"),
   "  Similarity: " ++ fmtFixed 3 r.similarity,
   ""]

/-- The enumerated result blocks, indices starting at 1. -/
def resultBlocks (mode_category : String) (idx : ℕ) :
    List SearchRow → List String
  | [] => []
  | r :: rest =>
    resultBlock mode_category idx r ++ resultBlocks mode_category (idx + 1) rest

/-- The context_lines list of generate_final_response: the prompt summary,
a header, and either the explicit no-results line or one block per result. -/
def contextLines (mode_category prompt_summary : String)
    (results : List SearchRow) : List String :=
  ["Prompt Summary: " ++ prompt_summary, "Search Results:"]
    ++ match results with
       | [] => ["No relevant results found."]
       | _ :: _ => resultBlocks mode_category 1 results

/-- The user message of generate_final_response, with the query and the
assembled context interpolated at the two format placeholders. -/
def finalPrompt (user_prompt context : String) : String :=
  "\n    Based on the following context, provide a concise response to the query: "
    ++ user_prompt
    ++ "\n\n    Context:\n    "
    ++ context
    ++ "\n\n    The context contains a summarized key phrase of the query (Prompt Summary) and search results with ID, Description, Summary, Category (from u_resolution_tier_2), Resolution Time (in hours), and Similarity (relevance to the query). Provide a clear and concise response followed by a list of actionable steps to resolve the issue. Base the response and steps on the Prompt Summary and search results. If specific details are missing, provide general guidance based on the context and category, without referencing specific result IDs, similarity scores, or suggesting to explore other results. Only state that the context is irrelevant if no results are provided. Avoid responding with 'I don't know' or 'no exact match found.' Format the response as:\n    Response: [Your concise response]\n    Actionable Steps:\n    - [Step 1]\n    - [Step 2]\n    - [Step 3]\n    "

/-- The system message of generate_final_response. -/
def system_message : String :=
  "\n    You are a helpful assistant. Provide a concise response to the query based on the provided context, which contains a summarized key phrase of the query (Prompt Summary) and search results with ID, Description, Summary, Category, Resolution Time (in hours), and Similarity. Analyze the Prompt Summary and search results to generate a clear response followed by a list of actionable steps to resolve the issue. If specific details are missing, offer general guidance based on the context and category, without referencing specific result IDs, similarity scores, or suggesting to explore other results. Only state that the context is irrelevant if no results are provided. Do not respond with 'I don't know' or 'no exact match found.' Format the response as:\n    Response: [Your concise response]\n    Actionable Steps:\n    - [Step 1]\n    - [Step 2]\n    - [Step 3]\n    "

/-- The deterministic template substituted when the chat completion comes
back empty. -/
def fallbackContent : String :=
  "Response: Please provide more details or check the system documentation for guidance.\nActionable Steps:\n- Review the system documentation.\n- Verify input data for accuracy.\n- Contact support if the issue persists."

/-- The deterministic template substituted when the chat call raises. -/
def errorFallbackContent : String :=
  "Response: Error generating response. Please try again or check the system logs.\nActionable Steps:\n- Check system logs for errors.\n- Verify input data.\n- Contact support if the issue persists."

/-- The estimated-resolution-time line of the final answer. -/
def timeLine : Option ℚ → String
  | some t => "Estimated Resolution Time: " ++ fmtFixed 2 t ++ " hours"
  | none =>
    "Estimated Resolution Time: Unknown (no historical data for this category)"

/-- The three fixed trailing lines of every final answer: resolution
category, estimated resolution time, trending issue percentage. -/
def responseFooter (category : String) (avg : Option ℚ) (trending : ℚ) :
    String :=
  "Resolution Category: " ++ category ++ "\n" ++ timeLine avg
    ++ "\nTrending Issue Percentage: " ++ fmtFixed 2 trending ++ "%"

/-- The try/except around the ollama.chat call of generate_final_response:
a successful non-blank completion is stripped and used, a blank completion
is replaced by the empty-completion template, a raised chat exception is
replaced by the error template; in every case the three footer lines are
appended and a normal string is produced. -/
def composeAnswer (category : String) (avg : Option ℚ) (trending : ℚ) :
    Except String String → String
  | Except.ok raw =>
    (if strBlank raw then fallbackContent else raw.trim) ++ "\n"
      ++ responseFooter category avg trending
  | Except.error _ =>
    errorFallbackContent ++ "\n" ++ responseFooter category avg trending

/-- The answer produced by generate_final_response once the resolution-time
estimate has been computed: assembles the context, makes the chat call and
composes the final answer. -/
def respond_with (chat : ChatOracle) (d : List RawRow) (user_prompt : String)
    (search_results : List SearchRow) (avg : Option ℚ) : String :=
  composeAnswer (resolve_category d search_results) avg
    (trending_percentage d search_results)
    (chat [("system", system_message),
           ("user", finalPrompt user_prompt
             (String.intercalate "\n"
               (contextLines (dataset_mode d)
                 (oneline_solution_summary chat (some user_prompt))
                 search_results)))])

/-- generate_final_response of src/rag.py.  The df parameter is the result
of the read_file call at line 213 (None when reading failed): a None
DataFrame raises immediately at the mode computation of line 214, and a
preprocessing failure inside calculate_approximate_resolution_time also
propagates.  After that, the chat call is wrapped in try/except: a raised
chat exception and an empty completion are both replaced by deterministic
fallback templates, and the category, estimated-time and trending lines
are always appended, so the function returns a normal non-empty answer for
every chat outcome. -/
def generate_final_response (chat : ChatOracle) (df : Option (List RawRow))
    (now : ℚ) (user_prompt : String) (search_results : List SearchRow) :
    Except String String :=
  match df with
  | none => Except.error "AttributeError: NoneType has no attribute mode"
  | some d =>
    (calculate_approximate_resolution_time (some d) now user_prompt
        search_results).map
      (respond_with chat d user_prompt search_results)

/-- BugData of src/rag/rag2.py. -/
structure BugData where
  incident_number : String
  product : String
  description : String
  closing_notes : Option String := none
  resolution_tier_1 : Option String := none
  resolution_tier_2 : Option String := none
  resolution_tier_3 : Option String := none
  problem_id : Option String := none

/-- Python truthiness of an optional string field: False for None and for
the empty string. -/
def truthy : Option String → Bool
  | none => false
  | some s => s ≠ ""

/-- The resolution_text assembled by _store_embeddings when closing notes
exist: the closing notes plus one segment per truthy tier field. -/
def resolution_text (b : BugData) : String :=
  "Resolution: " ++ b.closing_notes.getD ""
    ++ (if truthy b.resolution_tier_1 then
          " | Tier 1: " ++ b.resolution_tier_1.getD "" else "")
    ++ (if truthy b.resolution_tier_2 then
          " | Tier 2: " ++ b.resolution_tier_2.getD "" else "")
    ++ (if truthy b.resolution_tier_3 then
          " | Tier 3: " ++ b.resolution_tier_3.getD "" else "")

/-- The combined_text assembled by _store_embeddings: product and
description always, plus the resolution segment when closing notes exist. -/
def combined_text (b : BugData) : String :=
  "Product: " ++ b.product ++ " | Description: " ++ b.description
    ++ (if truthy b.closing_notes then
          " | Resolution: " ++ b.closing_notes.getD "" else "")

/-- The embedding_configs list built by _store_embeddings of
src/rag/rag2.py: the description config always, the resolution config only
when closing notes are truthy, and the combined config always (appended
unconditionally at line 93). -/
def embedding_configs (b : BugData) : List (String × String) :=
  ([("description", b.description)]
      ++ (if truthy b.closing_notes then [("resolution", resolution_text b)]
          else []))
    ++ [("combined", combined_text b)]

/-- One row of the bug_embeddings table. -/
structure EmbeddingRow where
  bug_id : ℕ
  content_type : String
  content_text : String
  embedding : Vec

/-- The insert loop at the end of _store_embeddings: one bug_embeddings row
per config; generate_embedding re-raises on failure, so the first failing
embedding aborts with the exception.  The oracle embed is the remote
embedding call of rag2.py, which raises on failure. -/
def store_embeddings_rows (embed : String → Except String Vec) (bug_id : ℕ)
    (b : BugData) : Except String (List EmbeddingRow) :=
  (embedding_configs b).mapM fun ct =>
    (embed ct.2).map fun v =>
      { bug_id := bug_id, content_type := ct.1, content_text := ct.2,
        embedding := v }

/-- One row of the join of bugs with bug_embeddings scanned by the
hybrid_search query of src/rag/rag2.py. -/
structure JoinedRow where
  bug : BugData
  content_type : String
  content_text : String
  embedding : Vec

/-- One row returned by the hybrid_search query, with
similarity_score = 1 - cosine distance of the embedding to the query
vector. -/
structure HybridRow where
  incident_number : String
  product : String
  description : String
  closing_notes : Option String
  resolution_tier_1 : Option String
  resolution_tier_2 : Option String
  resolution_tier_3 : Option String
  problem_id : Option String
  similarity_score : ℚ
  content_type : String

/-- The resolution tier column selected by a tier level, none for a level
outside 1..3. -/
def tierField (b : BugData) : ℕ → Option String
  | 1 => b.resolution_tier_1
  | 2 => b.resolution_tier_2
  | 3 => b.resolution_tier_3
  | _ => none

/-- The WHERE clause assembled by hybrid_search: the similarity threshold
condition always; the product equality only when the product argument is
truthy; one tier equality per entry of resolution_tiers whose level is in
1..3 (other levels are silently ignored).  An SQL equality against a NULL
column cell is false. -/
def hybridKeep (cosDist : Vec → Vec → ℚ) (qv : Vec) (product : Option String)
    (tiers : List (ℕ × String)) (thr : ℚ) (r : JoinedRow) : Bool :=
  decide (thr ≤ 1 - cosDist r.embedding qv)
    && (match product with
        | none => true
        | some p => if p = "" then true else r.bug.product == p)
    && tiers.all fun tv =>
        if tv.1 = 1 ∨ tv.1 = 2 ∨ tv.1 = 3 then
          tierField r.bug tv.1 == some tv.2
        else true

/-- The SELECT of a hybrid row from a joined row. -/
def toHybridRow (cosDist : Vec → Vec → ℚ) (qv : Vec) (r : JoinedRow) :
    HybridRow :=
  { incident_number := r.bug.incident_number
    product := r.bug.product
    description := r.bug.description
    closing_notes := r.bug.closing_notes
    resolution_tier_1 := r.bug.resolution_tier_1
    resolution_tier_2 := r.bug.resolution_tier_2
    resolution_tier_3 := r.bug.resolution_tier_3
    problem_id := r.bug.problem_id
    similarity_score := 1 - cosDist r.embedding qv
    content_type := r.content_type }

/-- The SQL query assembled by hybrid_search of src/rag/rag2.py: filter the
join by the conjunctive WHERE conditions, order by cosine distance to the
query vector ascending (similarity descending), truncate to limit. -/
def hybrid_search_query (cosDist : Vec → Vec → ℚ) (qv : Vec)
    (table : List JoinedRow) (product : Option String)
    (tiers : List (ℕ × String)) (thr : ℚ) (lim : ℕ) : List HybridRow :=
  ((sortLe (fun a b => cosDist a.embedding qv ≤ cosDist b.embedding qv)
        (table.filter (hybridKeep cosDist qv product tiers thr))).map
      (toHybridRow cosDist qv)).take lim

/-- hybrid_search of src/rag/rag2.py: embeds the query (generate_embedding
re-raises on failure, which propagates to the caller), then runs the SQL
query. -/
def hybrid_search (embed : String → Except String Vec)
    (cosDist : Vec → Vec → ℚ) (table : List JoinedRow) (query : String)
    (product : Option String) (tiers : List (ℕ × String)) (thr : ℚ)
    (lim : ℕ) : Except String (List HybridRow) :=
  (embed query).map fun qv =>
    hybrid_search_query cosDist qv table product tiers thr lim

/-- The batch slices visited by the loop for i in range(0, len(bugs),
batch_size) of bulk_insert_bugs, for a positive batch size (Python range
raises on step 0; this model is only used at positive sizes). -/
def chunks {α : Type} (bs : ℕ) : List α → List (List α)
  | [] => []
  | x :: xs => (x :: xs.take (bs - 1)) :: chunks bs (xs.drop (bs - 1))
termination_by l => l.length
decreasing_by simp [List.length_drop]; omega

/-- Whether every embedding of every bug of a batch succeeds; the first
failing generate_embedding call inside the batch raises, aborting the
batch before its commit. -/
def batch_ok (embedOk : String → Bool) (batch : List BugData) : Bool :=
  batch.all fun b => (embedding_configs b).all fun ct => embedOk ct.2

/-- The batch loop of bulk_insert_bugs: each fully successful batch is
committed (its bugs join the persisted state) and the loop continues; the
first failing batch is rolled back by the connection context manager and
the exception propagates, so later batches are never attempted while the
previously committed batches stay persisted. -/
def bulk_insert_go (embedOk : String → Bool) (committed : List BugData) :
    List (List BugData) → List BugData × Option String
  | [] => (committed, none)
  | batch :: rest =>
    if batch_ok embedOk batch then
      bulk_insert_go embedOk (committed ++ batch) rest
    else (committed, some "embedding failed")

/-- bulk_insert_bugs of src/rag/rag2.py: partitions the input into batches
of batch_size and runs the batch loop against an initially unchanged
store; returns the bugs committed by the run and the propagated exception,
if any. -/
def bulk_insert_bugs (embedOk : String → Bool) (bugs : List BugData)
    (batch_size : ℕ) : List BugData × Option String :=
  bulk_insert_go embedOk [] (chunks batch_size bugs)

/-- A distance oracle used for concrete evaluations: constant distance
9/10, so every similarity is 1/10. -/
def exDist : Vec → Vec → ℚ := fun _ _ => 9 / 10

/-- An embedding oracle that always succeeds with the vector [1]. -/
def exEmbed : String → Option Vec := fun _ => some [1]

/-- An embedding oracle whose remote call always fails (rag.py swallows
the failure into None). -/
def exFailEmbed : String → Option Vec := fun _ => none

/-- A chat oracle whose remote call always raises. -/
def wChat : ChatOracle := fun _ => Except.error "service unavailable"

/-- A one-row problem_table for concrete search evaluations. -/
def exProw : ProblemRow :=
  { id := 1, description_content := "d", summary_content := "s",
    u_resolution_tier_2 := "T", resolution_time_hours := some 1,
    description_vector := [1] }

/-- The row search_data returns on exProw under exDist: similarity
1 - 9/10. -/
def exSearchRow : SearchRow :=
  { id := 1, description_content := "d", summary_content := "s",
    u_resolution_tier_2 := "T", resolution_time_hours := some 1,
    similarity := 1 - (9 : ℚ) / 10 }

/-- A DataFrame whose category column holds only empty strings (no NaN). -/
def dfAllEmptyCats : List RawRow :=
  [⟨some "a", some "d1", some "", none, none⟩,
   ⟨some "b", some "d2", some "", none, none⟩]

/-- A DataFrame whose category column holds two empty strings and one
non-empty value. -/
def dfMixedCats : List RawRow :=
  [⟨some "a", some "d1", some "", none, none⟩,
   ⟨some "b", some "d2", some "", none, none⟩,
   ⟨some "c", some "d3", some "A", none, none⟩]

/-- The example dataset of the claim: three incidents, two tagged
Frontend, one tagged Backend. -/
def exIncidents : List RawRow :=
  [⟨some "n1", some "frontend bug one", some "Frontend", none, none⟩,
   ⟨some "n2", some "frontend bug two", some "Frontend", none, none⟩,
   ⟨some "n3", some "backend bug", some "Backend", none, none⟩]

/-- The example top search result of the claim: the Backend incident,
similarity 0.81. -/
def exBackendResult : SearchRow :=
  { id := 3, description_content := "backend bug", summary_content := "s",
    u_resolution_tier_2 := "Backend", resolution_time_hours := some 1,
    similarity := 81 / 100 }

/-- A bug without closing notes (and no tiers). -/
def bugNoNotes : BugData :=
  { incident_number := "INC-1", product := "P", description := "D" }

/-- Sample cleaned rows for the ingestion-loop witnesses. -/
def wRow : CleanRow :=
  { close_notes := "cn", description := "d", u_resolution_tier_2 := "T",
    sys_created_on := 0, resolved_at := 0, resolution_time_hours := 1 / 10 }

/-- A second sample cleaned row, with a different dedup key. -/
def wRow2 : CleanRow :=
  { close_notes := "cn2", description := "d2", u_resolution_tier_2 := "T",
    sys_created_on := 0, resolved_at := 0, resolution_time_hours := 1 / 10 }

/-- A one-row raw DataFrame for the preprocessing witness. -/
def wRawRow : RawRow := ⟨some "c", some "d", some "T", none, none⟩

/-- The cleaned row preprocess_data produces from wRawRow at now = 0. -/
def wCleanRow : CleanRow :=
  { close_notes := "c", description := "d", u_resolution_tier_2 := "T",
    sys_created_on := 0, resolved_at := 0,
    resolution_time_hours := max (((0 : ℚ) - 0) / 3600) (1 / 10) }

/-- A bug whose incident number and description are the decimal digits of
n. -/
def wBug (n : ℕ) : BugData :=
  { incident_number := toString n, product := "P", description := toString n }

/-- Five sample bugs for the bulk-insert witness. -/
def wBugs5 : List BugData := [wBug 0, wBug 1, wBug 2, wBug 3, wBug 4]

/-- An embedding-success oracle that fails exactly on the text "2", the
description of wBug 2 (which lies in the second batch when the batch size
is 2). -/
def wEmbedFail2 : String → Bool := fun s => s ≠ "2"

/-- A sample tuple for the store_in_supabase witness. -/
def wTuple : DataTuple :=
  { description_content := "d", summary_content := "s",
    embedding_description := [1], embedding_summary := [1],
    resolution_tier := "T", issue_created_on := 0, issue_resolved := 0,
    resolution_time_hours := 1 / 10 }

/-- An insert-failure oracle raising exactly on the second insert. -/
def wFailsAt1 : ℕ → Bool := fun i => i = 1

theorem mem_insertLe {α : Type} (le : α → α → Bool) (x a : α) (l : List α) :
    a ∈ insertLe le x l ↔ a = x ∨ a ∈ l := by
  induction l with
  | nil => simp [insertLe]
  | cons y ys ih =>
    simp only [insertLe]
    split
    · simp [List.mem_cons]
    · simp only [List.mem_cons, ih]
      tauto

theorem mem_sortLe {α : Type} (le : α → α → Bool) (a : α) (l : List α) :
    a ∈ sortLe le l ↔ a ∈ l := by
  induction l with
  | nil => simp [sortLe]
  | cons x xs ih => simp [sortLe, mem_insertLe, ih]

theorem pairwise_insertLe {α : Type} {le : α → α → Bool}
    (hTot : ∀ a b, le a b = true ∨ le b a = true)
    (hTrans : ∀ a b c, le a b = true → le b c = true → le a c = true)
    (x : α) {l : List α} (hl : l.Pairwise (fun a b => le a b = true)) :
    (insertLe le x l).Pairwise (fun a b => le a b = true) := by
  induction l with
  | nil => simp [insertLe]
  | cons y ys ih =>
    rcases List.pairwise_cons.mp hl with ⟨hy, hys⟩
    simp only [insertLe]
    split
    next h =>
      refine List.pairwise_cons.mpr ⟨?_, hl⟩
      intro b hb
      rcases List.mem_cons.mp hb with heq | hb
      · subst heq
        exact h
      · exact hTrans x y b h (hy b hb)
    next h =>
      refine List.pairwise_cons.mpr ⟨?_, ih hys⟩
      intro b hb
      rcases (mem_insertLe le x b ys).mp hb with heq | hb
      · subst heq
        rcases hTot b y with h1 | h1
        · exact absurd h1 h
        · exact h1
      · exact hy b hb

theorem pairwise_sortLe {α : Type} {le : α → α → Bool}
    (hTot : ∀ a b, le a b = true ∨ le b a = true)
    (hTrans : ∀ a b c, le a b = true → le b c = true → le a c = true)
    (l : List α) : (sortLe le l).Pairwise (fun a b => le a b = true) := by
  induction l with
  | nil => simp [sortLe]
  | cons x xs ih => exact pairwise_insertLe hTot hTrans x ih

theorem drop_dup_go_sublist {α β : Type} [DecidableEq β] (key : α → β)
    (seen : List β) (l : List α) : (drop_dup_go key seen l).Sublist l := by
  induction l generalizing seen with
  | nil => simp [drop_dup_go]
  | cons x xs ih =>
    simp only [drop_dup_go]
    split
    · exact (ih seen).cons x
    · exact (ih (key x :: seen)).cons₂ x

theorem drop_dup_go_spec {α β : Type} [DecidableEq β] (key : α → β)
    (seen : List β) (l : List α) :
    ∀ y ∈ drop_dup_go key seen l,
      key y ∉ seen
        ∧ l.find? (fun a => decide (key a = key y)) = some y := by
  induction l generalizing seen with
  | nil => simp [drop_dup_go]
  | cons x xs ih =>
    intro y hy
    simp only [drop_dup_go] at hy
    by_cases hx : key x ∈ seen
    · rw [if_pos hx] at hy
      obtain ⟨hns, hfind⟩ := ih seen y hy
      have hne : decide (key x = key y) = false := by
        apply decide_eq_false
        intro h
        exact hns (h ▸ hx)
      exact ⟨hns, by rw [List.find?_cons, hne]; exact hfind⟩
    · rw [if_neg hx] at hy
      rcases List.mem_cons.mp hy with rfl | hy2
      · exact ⟨hx, by simp [List.find?_cons]⟩
      · obtain ⟨hns, hfind⟩ := ih (key x :: seen) y hy2
        have hxy : decide (key x = key y) = false := by
          apply decide_eq_false
          intro h
          exact hns (by rw [← h]; exact List.mem_cons_self _ _)
        refine ⟨fun hc => hns (List.mem_cons_of_mem _ hc), ?_⟩
        rw [List.find?_cons, hxy]
        exact hfind

theorem drop_dup_go_pairwise {α β : Type} [DecidableEq β] (key : α → β)
    (seen : List β) (l : List α) :
    (drop_dup_go key seen l).Pairwise (fun a b => key a ≠ key b) := by
  induction l generalizing seen with
  | nil => simp [drop_dup_go]
  | cons x xs ih =>
    simp only [drop_dup_go]
    split
    · exact ih seen
    · refine List.pairwise_cons.mpr ⟨?_, ih (key x :: seen)⟩
      intro b hb h
      exact (drop_dup_go_spec key (key x :: seen) xs b hb).1
        (by rw [← h]; exact List.mem_cons_self _ _)

theorem drop_dup_go_covers {α β : Type} [DecidableEq β] (key : α → β)
    (seen : List β) (l : List α) :
    ∀ x ∈ l, key x ∈ seen ∨ ∃ y ∈ drop_dup_go key seen l, key y = key x := by
  induction l generalizing seen with
  | nil => simp
  | cons z zs ih =>
    intro x hx
    simp only [drop_dup_go]
    by_cases hz : key z ∈ seen
    · rw [if_pos hz]
      rcases List.mem_cons.mp hx with rfl | hx2
      · exact Or.inl hz
      · exact ih seen x hx2
    · rw [if_neg hz]
      rcases List.mem_cons.mp hx with rfl | hx2
      · exact Or.inr ⟨x, List.mem_cons_self _ _, rfl⟩
      · rcases ih (key z :: seen) x hx2 with h | ⟨y, hy, hk⟩
        · rcases List.mem_cons.mp h with h1 | h1
          · exact Or.inr ⟨z, List.mem_cons_self _ _, h1.symm⟩
          · exact Or.inl h1
        · exact Or.inr ⟨y, List.mem_cons_of_mem _ hy, hk⟩

theorem drop_dup_go_eq_self {α β : Type} [DecidableEq β] (key : α → β)
    (seen : List β) (l : List α)
    (hl : l.Pairwise (fun a b => key a ≠ key b))
    (hs : ∀ x ∈ l, key x ∉ seen) :
    drop_dup_go key seen l = l := by
  induction l generalizing seen with
  | nil => rfl
  | cons x xs ih =>
    rcases List.pairwise_cons.mp hl with ⟨hx, hxs⟩
    simp only [drop_dup_go]
    rw [if_neg (hs x (List.mem_cons_self _ _))]
    congr 1
    refine ih (key x :: seen) hxs ?_
    intro y hy hc
    rcases List.mem_cons.mp hc with h1 | h1
    · exact (hx y hy) h1.symm
    · exact hs y (List.mem_cons_of_mem _ hy) h1

theorem chunks_nil_iff {α : Type} (bs : ℕ) (l : List α) :
    chunks bs l = [] ↔ l = [] := by
  cases l with
  | nil => simp [chunks]
  | cons x xs => simp [chunks]

theorem chunks_flatten {α : Type} (bs : ℕ) (l : List α) :
    (chunks bs l).flatten = l := by
  have H : ∀ (n : ℕ) (l : List α), l.length ≤ n →
      (chunks bs l).flatten = l := by
    intro n
    induction n with
    | zero =>
      intro l h
      have h0 : l = [] := List.length_eq_zero.mp (Nat.le_zero.mp h)
      subst h0
      simp [chunks]
    | succ n ih =>
      intro l h
      cases l with
      | nil => simp [chunks]
      | cons x xs =>
        simp only [chunks, List.flatten_cons]
        rw [ih (xs.drop (bs - 1))
          (by simp only [List.length_drop]; simp only [List.length_cons] at h; omega)]
        rw [List.cons_append, List.take_append_drop]
  exact H l.length l le_rfl

theorem chunks_mem_spec {α : Type} (bs : ℕ) (hbs : 0 < bs) (l : List α) :
    ∀ c ∈ chunks bs l, c ≠ [] ∧ c.length ≤ bs := by
  have H : ∀ (n : ℕ) (l : List α), l.length ≤ n →
      ∀ c ∈ chunks bs l, c ≠ [] ∧ c.length ≤ bs := by
    intro n
    induction n with
    | zero =>
      intro l h c hc
      have h0 : l = [] := List.length_eq_zero.mp (Nat.le_zero.mp h)
      subst h0
      simp [chunks] at hc
    | succ n ih =>
      intro l h c hc
      cases l with
      | nil => simp [chunks] at hc
      | cons x xs =>
        simp only [chunks] at hc
        rcases List.mem_cons.mp hc with heq | hc2
        · subst heq
          refine ⟨by simp, ?_⟩
          simp only [List.length_cons, List.length_take]
          omega
        · exact ih (xs.drop (bs - 1))
            (by simp only [List.length_drop]; simp only [List.length_cons] at h; omega)
            c hc2
  exact H l.length l le_rfl

theorem chunks_dropLast_spec {α : Type} (bs : ℕ) (hbs : 0 < bs) (l : List α) :
    ∀ c ∈ (chunks bs l).dropLast, c.length = bs := by
  have H : ∀ (n : ℕ) (l : List α), l.length ≤ n →
      ∀ c ∈ (chunks bs l).dropLast, c.length = bs := by
    intro n
    induction n with
    | zero =>
      intro l h c hc
      have h0 : l = [] := List.length_eq_zero.mp (Nat.le_zero.mp h)
      subst h0
      simp [chunks] at hc
    | succ n ih =>
      intro l h c hc
      cases l with
      | nil => simp [chunks] at hc
      | cons x xs =>
        simp only [chunks] at hc
        cases hrest : chunks bs (xs.drop (bs - 1)) with
        | nil =>
          rw [hrest] at hc
          simp at hc
        | cons r1 rs =>
          rw [hrest] at hc
          simp only [List.dropLast] at hc
          rcases List.mem_cons.mp hc with heq | hc2
          · subst heq
            have hne : xs.drop (bs - 1) ≠ [] := by
              intro h0
              rw [h0] at hrest
              simp [chunks] at hrest
            have hlen : bs - 1 ≤ xs.length := by
              by_contra hlt
              push_neg at hlt
              exact hne (List.drop_eq_nil_iff.mpr (by omega))
            simp only [List.length_cons, List.length_take]
            omega
          · refine ih (xs.drop (bs - 1))
              (by simp only [List.length_drop]; simp only [List.length_cons] at h; omega)
              c ?_
            rw [hrest]
            exact hc2
  exact H l.length l le_rfl

theorem bulk_insert_go_fst (embedOk : String → Bool)
    (committed : List BugData) (batches : List (List BugData)) :
    (bulk_insert_go embedOk committed batches).1
      = committed ++ (batches.takeWhile (batch_ok embedOk)).flatten := by
  induction batches generalizing committed with
  | nil => simp [bulk_insert_go]
  | cons b rest ih =>
    simp only [bulk_insert_go, List.takeWhile_cons]
    cases hb : batch_ok embedOk b
    · simp
    · simp [ih, List.append_assoc]

theorem bulk_insert_go_snd (embedOk : String → Bool)
    (committed : List BugData) (batches : List (List BugData)) :
    ((bulk_insert_go embedOk committed batches).2 = none)
      ↔ (batches.all (batch_ok embedOk) = true) := by
  induction batches generalizing committed with
  | nil => simp [bulk_insert_go]
  | cons b rest ih =>
    simp only [bulk_insert_go, List.all_cons]
    cases hb : batch_ok embedOk b
    · simp
    · simp [ih]

theorem mkStored_id (n : ℕ) (d : DataTuple) : (mkStored n d).id = n := rfl

theorem storedPayload_mkStored (n : ℕ) (d : DataTuple) :
    storedPayload (mkStored n d) = d := rfl

theorem store_loop_spec (insertFails : ℕ → Bool) :
    ∀ (data : List DataTuple) (idx : ℕ) (acc : List StoredRow),
    ∃ k, k ≤ data.length
      ∧ ((store_loop insertFails acc idx data).1.map (fun s => s.id)
          = acc.map (fun s => s.id) ++ List.range' (idx + 1) k)
      ∧ ((store_loop insertFails acc idx data).1.map storedPayload
          = acc.map storedPayload ++ data.take k)
      ∧ (∀ i < k, insertFails (idx + i) = false)
      ∧ (k < data.length → insertFails (idx + k) = true) := by
  intro data
  induction data with
  | nil =>
    intro idx acc
    refine ⟨0, le_rfl, ?_, ?_, ?_, ?_⟩
    · simp [store_loop]
    · simp [store_loop]
    · intro i hi
      omega
    · intro h
      simp at h
  | cons d rest ih =>
    intro idx acc
    cases hf : insertFails idx with
    | true =>
      refine ⟨0, Nat.zero_le _, ?_, ?_, ?_, ?_⟩
      · simp [store_loop, hf]
      · simp [store_loop, hf]
      · intro i hi
        omega
      · intro _
        simpa using hf
    | false =>
      obtain ⟨k, hk, hid, hpay, hok, hfail⟩ :=
        ih (idx + 1) (acc ++ [mkStored (idx + 1) d])
      have hstep : store_loop insertFails acc idx (d :: rest)
          = store_loop insertFails (acc ++ [mkStored (idx + 1) d]) (idx + 1)
              rest := by
        simp [store_loop, hf]
      refine ⟨k + 1, by simpa using Nat.succ_le_succ hk, ?_, ?_, ?_, ?_⟩
      · rw [hstep, hid, List.range'_succ]
        simp [List.map_append, mkStored_id, List.append_assoc]
      · rw [hstep, hpay, List.take_succ_cons]
        simp [List.map_append, storedPayload_mkStored, List.append_assoc]
      · intro i hi
        cases i with
        | zero => simpa using hf
        | succ j =>
          have h2 := hok j (by omega)
          rw [show idx + (j + 1) = idx + 1 + j by omega]
          exact h2
      · intro hlt
        have h2 := hfail (by simpa using Nat.lt_of_succ_lt_succ hlt)
        rw [show idx + (k + 1) = idx + 1 + k by omega]
        exact h2

theorem preprocess_ok_of (d : List RawRow) (now : ℚ)
    (h : d.filterMap (fun r => r.u_resolution_tier_2) ≠ []) :
    ∃ pdf, preprocess_data d now = Except.ok pdf := by
  unfold preprocess_data
  cases hfm : d.filterMap (fun r => r.u_resolution_tier_2) with
  | nil => exact absurd hfm h
  | cons v vs => exact ⟨_, rfl⟩

theorem calc_art_ok (d : List RawRow) (now : ℚ) (q : String)
    (results : List SearchRow)
    (h : d = [] ∨ d.filterMap (fun r => r.u_resolution_tier_2) ≠ []) :
    ∃ avg, calculate_approximate_resolution_time (some d) now q results
      = Except.ok avg := by
  cases d with
  | nil => exact ⟨none, rfl⟩
  | cons r0 rs =>
    have h2 : (r0 :: rs).filterMap (fun r => r.u_resolution_tier_2) ≠ [] := by
      rcases h with h | h
      · exact absurd h (by simp)
      · exact h
    obtain ⟨pdf, hpdf⟩ := preprocess_ok_of (r0 :: rs) now h2
    refine ⟨art_from_pdf pdf results, ?_⟩
    simp only [calculate_approximate_resolution_time]
    rw [hpdf]
    rfl

theorem str_length_pos_right (a b : String) (h : 0 < b.length) :
    0 < (a ++ b).length := by
  rw [String.length_append]
  omega

theorem responseFooter_length_pos (c : String) (avg : Option ℚ) (t : ℚ) :
    0 < (responseFooter c avg t).length := by
  unfold responseFooter
  apply str_length_pos_right
  decide

theorem composeAnswer_length_pos (c : String) (avg : Option ℚ) (t : ℚ)
    (res : Except String String) :
    0 < (composeAnswer c avg t res).length := by
  cases res with
  | ok raw =>
    simp only [composeAnswer]
    exact str_length_pos_right _ _ (responseFooter_length_pos _ _ _)
  | error e =>
    simp only [composeAnswer]
    exact str_length_pos_right _ _ (responseFooter_length_pos _ _ _)

theorem pairwise_sortLe_rat {α : Type} (f : α → ℚ) (l : List α) :
    (sortLe (fun a b => f a ≤ f b) l).Pairwise (fun a b => f a ≤ f b) := by
  have hp := @pairwise_sortLe α (fun a b => decide (f a ≤ f b)) ?_ ?_ l
  · exact hp.imp (fun h => of_decide_eq_true h)
  · intro a b
    rcases le_total (f a) (f b) with h | h
    · exact Or.inl (decide_eq_true h)
    · exact Or.inr (decide_eq_true h)
  · intro a b c h1 h2
    exact decide_eq_true (le_trans (of_decide_eq_true h1) (of_decide_eq_true h2))

theorem pairwise_map_take {α β : Type} (R : β → β → Prop) (f : α → β)
    (l : List α) (n : ℕ) (h : l.Pairwise (fun a b => R (f a) (f b))) :
    ((l.map f).take n).Pairwise R :=
  List.Pairwise.sublist (List.take_sublist _ _) (List.pairwise_map.mpr h)

theorem row_tuple_isSome (chat : ChatOracle) (embed : String → Option Vec)
    (r : CleanRow) :
    (row_tuple chat embed r).isSome = row_embeds_ok chat embed r := by
  unfold row_tuple row_embeds_ok
  cases hd : generate_vector embed (some r.description) <;>
    cases hs : generate_vector embed (some (row_summary chat r)) <;> rfl

theorem row_tuple_none_of (chat : ChatOracle) (embed : String → Option Vec)
    (r : CleanRow) (h : row_embeds_ok chat embed r = false) :
    row_tuple chat embed r = none := by
  have hiso := row_tuple_isSome chat embed r
  rw [h] at hiso
  cases hrt : row_tuple chat embed r
  · rfl
  · rw [hrt] at hiso
    simp at hiso

/-- C1 (corrected): hybrid_search of rag2.py orders by similarity
descending, filters by the threshold and truncates to the limit;
search_data of rag.py orders by similarity descending and returns at most
its hard-coded LIMIT of 10 rows, but applies no similarity threshold. -/
theorem claim_C1_amended (cosDist : Vec → Vec → ℚ) (qv : Vec)
    (jtable : List JoinedRow) (product : Option String)
    (tiers : List (ℕ × String)) (thr : ℚ) (lim : ℕ)
    (ptable : List ProblemRow) :
    (∀ r ∈ hybrid_search_query cosDist qv jtable product tiers thr lim,
        thr ≤ r.similarity_score)
    ∧ (hybrid_search_query cosDist qv jtable product tiers thr lim).Pairwise
        (fun a b => b.similarity_score ≤ a.similarity_score)
    ∧ (hybrid_search_query cosDist qv jtable product tiers thr lim).length
        ≤ lim
    ∧ (search_query cosDist qv ptable).Pairwise
        (fun a b => b.similarity ≤ a.similarity)
    ∧ (search_query cosDist qv ptable).length ≤ 10
    ∧ (∀ (embed : String → Except String Vec) (query : String),
        embed query = Except.ok qv →
        hybrid_search embed cosDist jtable query product tiers thr lim
          = Except.ok
              (hybrid_search_query cosDist qv jtable product tiers thr
                lim)) := by
  refine ⟨?_, ?_, ?_, ?_, ?_, ?_⟩
  · intro r hr
    unfold hybrid_search_query at hr
    have hr2 := (List.take_sublist _ _).subset hr
    obtain ⟨j, hj, rfl⟩ := List.mem_map.mp hr2
    have hj2 := (mem_sortLe _ _ _).mp hj
    have hk := (List.mem_filter.mp hj2).2
    unfold hybridKeep at hk
    simp only [Bool.and_eq_true] at hk
    exact of_decide_eq_true hk.1.1
  · unfold hybrid_search_query
    exact pairwise_map_take _ _ _ _
      ((pairwise_sortLe_rat (fun j : JoinedRow => cosDist j.embedding qv)
          _).imp (fun h => sub_le_sub_left h 1))
  · unfold hybrid_search_query
    rw [List.length_take]
    exact min_le_left _ _
  · unfold search_query
    exact pairwise_map_take _ _ _ _
      ((pairwise_sortLe_rat
          (fun r : ProblemRow => cosDist r.description_vector qv) _).imp
        (fun h => sub_le_sub_left h 1))
  · unfold search_query
    rw [List.length_take]
    exact min_le_left _ _
  · intro embed query h
    unfold hybrid_search
    rw [h]
    rfl

/-- Witness for the C1 theorem at concrete inputs, with the embedding
hypothesis of the last part discharged by evaluation. -/
theorem claim_C1_witness :
    (∀ r ∈ hybrid_search_query exDist [1] [] none [] (1 / 2) 5,
        1 / 2 ≤ r.similarity_score)
    ∧ (hybrid_search_query exDist [1] [] none [] (1 / 2) 5).Pairwise
        (fun a b => b.similarity_score ≤ a.similarity_score)
    ∧ (hybrid_search_query exDist [1] [] none [] (1 / 2) 5).length ≤ 5
    ∧ (search_query exDist [1] [exProw]).Pairwise
        (fun a b => b.similarity ≤ a.similarity)
    ∧ (search_query exDist [1] [exProw]).length ≤ 10
    ∧ hybrid_search (fun _ => Except.ok [1]) exDist [] "q" none [] (1 / 2) 5
        = Except.ok (hybrid_search_query exDist [1] [] none [] (1 / 2) 5) := by
  have h := claim_C1_amended exDist [1] [] none [] (1 / 2) 5 [exProw]
  exact ⟨h.1, h.2.1, h.2.2.1, h.2.2.2.1, h.2.2.2.2.1,
    h.2.2.2.2.2 (fun _ => Except.ok [1]) "q" rfl⟩

/-- C1 counterexample: search_data has no similarity threshold.  On a
one-row table whose only row has similarity 1/10, search_data returns that
row even though its similarity is below the (valid) threshold 1/2, so the
claim that the similarity search never returns results below the threshold
fails for search_data. -/
theorem claim_C1_counterexample :
    search_data exEmbed exDist [exProw] "q" = [exSearchRow]
    ∧ exSearchRow.similarity < 1 / 2 := by
  constructor
  · rfl
  · norm_num [exSearchRow]

/-- C3 counterexample: with an embedding oracle that always fails, the try
body of search_data raises (so no similarity query runs), but search_data
itself catches the exception and returns the empty list normally — the
embedding failure during an interactive query is not fatal to the caller,
contrary to the claim. -/
theorem claim_C3_counterexample :
    search_data_try exFailEmbed exDist [exProw] "q"
        = Except.error "TypeError: NoneType is not iterable"
    ∧ search_data exFailEmbed exDist [exProw] "q" = [] :=
  ⟨rfl, rfl⟩

/-- C3 (corrected): during bulk ingestion a record whose embedding fails
is skipped and the loop continues with the remaining records; during an
interactive query an embedding failure means no similarity query is
executed, but the exception is swallowed inside search_data, which returns
the empty list normally instead of failing fatally. -/
theorem claim_C3_amended (chat : ChatOracle) (embed : String → Option Vec)
    (pre post : List CleanRow) (r : CleanRow) (cosDist : Vec → Vec → ℚ)
    (table : List ProblemRow) (prompt : String) :
    (row_embeds_ok chat embed r = false →
      build_data_to_store chat embed (pre ++ r :: post)
        = build_data_to_store chat embed pre
          ++ build_data_to_store chat embed post)
    ∧ (generate_vector embed (some prompt) = none →
        search_data_try embed cosDist table prompt
            = Except.error "TypeError: NoneType is not iterable"
        ∧ search_data embed cosDist table prompt = []) := by
  constructor
  · intro h
    unfold build_data_to_store
    rw [List.filterMap_append]
    have hnone := row_tuple_none_of chat embed r h
    simp only [List.filterMap_cons, hnone]
  · intro h
    refine ⟨?_, ?_⟩
    · unfold search_data_try
      rw [h]
    · unfold search_data search_data_try
      rw [h]

/-- Witness for the C3 theorem at concrete inputs, with both hypotheses
discharged by evaluation. -/
theorem claim_C3_witness :
    row_embeds_ok wChat exFailEmbed wRow = false
    ∧ build_data_to_store wChat exFailEmbed ([] ++ wRow :: [wRow2])
        = build_data_to_store wChat exFailEmbed []
          ++ build_data_to_store wChat exFailEmbed [wRow2]
    ∧ generate_vector exFailEmbed (some "q") = none
    ∧ search_data_try exFailEmbed exDist [exProw] "q"
        = Except.error "TypeError: NoneType is not iterable"
    ∧ search_data exFailEmbed exDist [exProw] "q" = [] := by
  refine ⟨rfl, ?_, rfl, ?_, ?_⟩
  · exact (claim_C3_amended wChat exFailEmbed [] [wRow2] wRow exDist [exProw]
      "q").1 rfl
  · exact ((claim_C3_amended wChat exFailEmbed [] [wRow2] wRow exDist [exProw]
      "q").2 rfl).1
  · exact ((claim_C3_amended wChat exFailEmbed [] [wRow2] wRow exDist [exProw]
      "q").2 rfl).2

theorem preprocess_eq (df : List RawRow) (now : ℚ) (v : String)
    (vs : List String)
    (hfm : df.filterMap (fun r => r.u_resolution_tier_2) = v :: vs) :
    preprocess_data df now
      = Except.ok (drop_duplicates dedupKey
          (df.map (cleanRow (pandasMode (v :: vs)) now))) := by
  unfold preprocess_data
  rw [hfm]

theorem resolve_eq_claimed (r : RawRow) (d : List RawRow)
    (results : List SearchRow) :
    resolve_category (r :: d) results = claimed_category (r :: d) results := by
  cases results with
  | nil => rfl
  | cons t ts => rfl

theorem trending_ex_eq :
    trending_percentage exIncidents [exBackendResult] = 100 / 3 := by
  show ((1 : ℕ) : ℚ) / ((3 : ℕ) : ℚ) * 100 = 100 / 3
  norm_num

/-- C2 (code bug, evaluated): on a dataset whose category column holds
only empty strings, preprocess_data returns normally with the empty
categories still in place (pandas mode keeps empty strings, so the mode is
"" and the replace is a no-op) instead of raising the DataError the claim
and the code comments describe; and on a dataset with empty strings plus
one non-empty value "A", the empties again survive preprocessing. -/
theorem claim_C2_code_eval :
    (preprocess_data dfAllEmptyCats 0).map
        (fun out => out.map (fun r => r.u_resolution_tier_2))
      = Except.ok ["", ""]
    ∧ (preprocess_data dfMixedCats 0).map
        (fun out => out.map (fun r => r.u_resolution_tier_2))
      = Except.ok ["", "", "A"] :=
  ⟨rfl, rfl⟩

/-- C4 (confirmed): bulk_insert_bugs partitions its input into consecutive
batches of exactly batch_size records (the batches concatenate back to the
input, every batch is non-empty with at most batch_size records, and every
batch except possibly the last has exactly batch_size records), commits
batch by batch, and on a failing batch stops with the previously committed
batches persisted: the persisted state is the concatenation of the longest
prefix of fully successful batches, and the run reports no error exactly
when every batch succeeds. -/
theorem claim_C4 (embedOk : String → Bool) (bugs : List BugData) (bs : ℕ)
    (hbs : 0 < bs) :
    (chunks bs bugs).flatten = bugs
    ∧ (∀ c ∈ chunks bs bugs, c ≠ [] ∧ c.length ≤ bs)
    ∧ (∀ c ∈ (chunks bs bugs).dropLast, c.length = bs)
    ∧ (bulk_insert_bugs embedOk bugs bs).1
        = ((chunks bs bugs).takeWhile (batch_ok embedOk)).flatten
    ∧ ((bulk_insert_bugs embedOk bugs bs).2 = none
        ↔ (chunks bs bugs).all (batch_ok embedOk) = true) := by
  refine ⟨chunks_flatten bs bugs, chunks_mem_spec bs hbs bugs,
    chunks_dropLast_spec bs hbs bugs, ?_, ?_⟩
  · unfold bulk_insert_bugs
    rw [bulk_insert_go_fst]
    simp
  · unfold bulk_insert_bugs
    exact bulk_insert_go_snd embedOk [] _

/-- Witness for the C4 theorem: five bugs with batch size 2 (batches of
2, 2, 1), and an embedding oracle failing on the bug in the second batch. -/
theorem claim_C4_witness :
    0 < 2
    ∧ ((chunks 2 wBugs5).flatten = wBugs5
      ∧ (∀ c ∈ chunks 2 wBugs5, c ≠ [] ∧ c.length ≤ 2)
      ∧ (∀ c ∈ (chunks 2 wBugs5).dropLast, c.length = 2)
      ∧ (bulk_insert_bugs wEmbedFail2 wBugs5 2).1
          = ((chunks 2 wBugs5).takeWhile (batch_ok wEmbedFail2)).flatten
      ∧ ((bulk_insert_bugs wEmbedFail2 wBugs5 2).2 = none
          ↔ (chunks 2 wBugs5).all (batch_ok wEmbedFail2) = true)) :=
  ⟨by decide, claim_C4 wEmbedFail2 wBugs5 2 (by decide)⟩

/-- C5 (confirmed): for every chat oracle (including failing ones and ones
returning blank completions), every query and every search-result list,
generate_final_response returns Except.ok with a non-empty answer,
provided the ambient dataset was read and is preprocessable (empty, or
with a non-empty mode series for the category column). -/
theorem claim_C5 (chat : ChatOracle) (d : List RawRow) (now : ℚ)
    (q : String) (results : List SearchRow)
    (h : d = [] ∨ d.filterMap (fun r => r.u_resolution_tier_2) ≠ []) :
    ∃ s, generate_final_response chat (some d) now q results = Except.ok s
      ∧ 0 < s.length := by
  obtain ⟨avg, havg⟩ := calc_art_ok d now q results h
  refine ⟨respond_with chat d q results avg, ?_, ?_⟩
  · show (calculate_approximate_resolution_time (some d) now q results).map
        (respond_with chat d q results)
      = Except.ok (respond_with chat d q results avg)
    rw [havg]
    rfl
  · unfold respond_with
    exact composeAnswer_length_pos _ _ _ _

/-- Witness for the C5 theorem: empty dataset, failing chat oracle, empty
search results. -/
theorem claim_C5_witness :
    (([] : List RawRow) = []
      ∨ ([] : List RawRow).filterMap (fun r => r.u_resolution_tier_2) ≠ [])
    ∧ ∃ s, generate_final_response wChat (some []) 0 "q" [] = Except.ok s
        ∧ 0 < s.length :=
  ⟨Or.inl rfl, claim_C5 wChat [] 0 "q" [] (Or.inl rfl)⟩

/-- C6 counterexample: with an empty dataset but a search-result list whose
top tier is the non-empty "Backend", generate_final_response resolves the
category to the mode fallback "Unknown" (the top-result branch is guarded
by the dataset being non-empty), not to "Backend" as the claim requires. -/
theorem claim_C6_counterexample :
    resolve_category [] [exBackendResult] = "Unknown"
    ∧ claimed_category [] [exBackendResult] = "Backend"
    ∧ exBackendResult.u_resolution_tier_2 = "Backend"
    ∧ ("Unknown" : String) ≠ "Backend" := by
  refine ⟨rfl, rfl, rfl, ?_⟩
  decide

/-- C6 (corrected): for a non-empty dataset the resolved category is
exactly what the claim says (top-result tier when present and non-empty,
else dataset mode), and the trending percentage always equals the claimed
count/total ratio times 100 (0 on the empty dataset); but on an empty
dataset the category is the fallback "Unknown" regardless of the search
results.  The example scenario holds: three incidents, one "Backend", top
match "Backend" gives category "Backend" and percentage 100/3 (the 2-digit
rendering of which is 33.33). -/
theorem claim_C6_amended :
    (∀ (r : RawRow) (d : List RawRow) (results : List SearchRow),
      resolve_category (r :: d) results = claimed_category (r :: d) results)
    ∧ (∀ (d : List RawRow) (results : List SearchRow),
      trending_percentage d results = claimed_trending d results)
    ∧ (∀ results : List SearchRow, resolve_category [] results = "Unknown")
    ∧ resolve_category exIncidents [exBackendResult] = "Backend"
    ∧ trending_percentage exIncidents [exBackendResult] = 100 / 3 := by
  refine ⟨resolve_eq_claimed, ?_, ?_, rfl, trending_ex_eq⟩
  · intro d results
    cases d with
    | nil => rfl
    | cons r ds =>
      simp only [trending_percentage, claimed_trending]
      rw [resolve_eq_claimed]
  · intro results
    rfl

theorem mapM_except_length {ε α β : Type} (f : α → Except ε β) (l : List α)
    (out : List β) (h : l.mapM f = Except.ok out) : out.length = l.length := by
  induction l generalizing out with
  | nil =>
    simp only [List.mapM_nil] at h
    cases h
    rfl
  | cons a rest ih =>
    rw [List.mapM_cons] at h
    cases hfa : f a with
    | error e =>
      rw [hfa] at h
      exact absurd h (by simp [Bind.bind, Except.bind])
    | ok b =>
      rw [hfa] at h
      cases hrest : rest.mapM f with
      | error e =>
        rw [hrest] at h
        exact absurd h (by simp [Bind.bind, Except.bind])
      | ok bs =>
        rw [hrest] at h
        have : out = b :: bs := by
          simpa [Bind.bind, Except.bind, Pure.pure, Except.pure] using h.symm
        subst this
        simp [ih bs hrest]

/-- C7 counterexample: a bug without closing notes gets two embedding
records, description and combined (the combined config is appended
unconditionally), not only the description embedding as the claim says. -/
theorem claim_C7_counterexample :
    (embedding_configs bugNoNotes).map Prod.fst = ["description", "combined"]
    ∧ (embedding_configs bugNoNotes).length = 2 :=
  ⟨rfl, rfl⟩

/-- C7 (corrected): every stored incident gets either two or three
embedding records: description and combined always, resolution exactly
when the closing notes are truthy (so 2 without closing notes, 3 with);
when _store_embeddings succeeds it inserts exactly one bug_embeddings row
per config. -/
theorem claim_C7_amended (b : BugData) :
    ((embedding_configs b).map Prod.fst
      = if truthy b.closing_notes then
          ["description", "resolution", "combined"]
        else ["description", "combined"])
    ∧ 2 ≤ (embedding_configs b).length
    ∧ (embedding_configs b).length ≤ 3
    ∧ (∀ (embed : String → Except String Vec) (bug_id : ℕ)
          (rows : List EmbeddingRow),
        store_embeddings_rows embed bug_id b = Except.ok rows →
        rows.length = (embedding_configs b).length) := by
  refine ⟨?_, ?_, ?_, ?_⟩
  · cases h : truthy b.closing_notes <;> simp [embedding_configs, h]
  · cases h : truthy b.closing_notes <;> simp [embedding_configs, h]
  · cases h : truthy b.closing_notes <;> simp [embedding_configs, h]
  · intro embed bug_id rows h
    exact mapM_except_length _ _ rows h

/-- Witness for the C7 theorem: the bug without closing notes, stored with
an embedding oracle that always succeeds, produces exactly the description
and combined rows. -/
theorem claim_C7_witness :
    store_embeddings_rows (fun _ => Except.ok [1]) 7 bugNoNotes
        = Except.ok
            [⟨7, "description", "D", [1]⟩,
             ⟨7, "combined", "Product: P | Description: D", [1]⟩]
    ∧ ([(⟨7, "description", "D", [1]⟩ : EmbeddingRow),
        ⟨7, "combined", "Product: P | Description: D", [1]⟩] :
          List EmbeddingRow).length
        = (embedding_configs bugNoNotes).length :=
  ⟨rfl,
   (claim_C7_amended bugNoNotes).2.2.2 (fun _ => Except.ok [1]) 7 _ rfl⟩

/-- C8 (confirmed): every row output by preprocess_data has
resolution_time_hours at least 0.1, whatever the raw timestamps were
(missing and reversed included): the derived duration is clamped by max
with 1/10. -/
theorem claim_C8 (df : List RawRow) (now : ℚ) (out : List CleanRow)
    (hok : preprocess_data df now = Except.ok out) :
    ∀ r ∈ out, 1 / 10 ≤ r.resolution_time_hours := by
  cases hfm : df.filterMap (fun r => r.u_resolution_tier_2) with
  | nil =>
    unfold preprocess_data at hok
    rw [hfm] at hok
    simp at hok
  | cons v vs =>
    rw [preprocess_eq df now v vs hfm] at hok
    injection hok with hok
    intro r hr
    rw [← hok] at hr
    have hr2 := (drop_dup_go_sublist dedupKey [] _).subset hr
    obtain ⟨x, hx, hxr⟩ := List.mem_map.mp hr2
    rw [← hxr]
    exact le_max_right _ _

/-- Witness for the C8 theorem: a one-row DataFrame with both timestamps
missing; the produced row has duration exactly the clamp value. -/
theorem claim_C8_witness :
    preprocess_data [wRawRow] 0 = Except.ok [wCleanRow]
    ∧ 1 / 10 ≤ wCleanRow.resolution_time_hours :=
  ⟨rfl, claim_C8 [wRawRow] 0 [wCleanRow] rfl wCleanRow
    (List.mem_singleton.mpr rfl)⟩

/-- C9 (confirmed): the dedup step keeps a subsequence of the input (order
preserved), its rows have pairwise distinct (close_notes, description)
keys, each kept row is the first input row with its key, every input key
is represented, and the step is idempotent: applied to its own output it
returns it unchanged. -/
theorem claim_C9 (l : List CleanRow) :
    (drop_duplicates dedupKey l).Sublist l
    ∧ (drop_duplicates dedupKey l).Pairwise
        (fun a b => dedupKey a ≠ dedupKey b)
    ∧ (∀ y ∈ drop_duplicates dedupKey l,
        l.find? (fun a => decide (dedupKey a = dedupKey y)) = some y)
    ∧ (∀ x ∈ l, ∃ y ∈ drop_duplicates dedupKey l, dedupKey y = dedupKey x)
    ∧ drop_duplicates dedupKey (drop_duplicates dedupKey l)
        = drop_duplicates dedupKey l := by
  refine ⟨drop_dup_go_sublist _ _ _, drop_dup_go_pairwise _ _ _, ?_, ?_, ?_⟩
  · intro y hy
    exact (drop_dup_go_spec dedupKey [] l y hy).2
  · intro x hx
    rcases drop_dup_go_covers dedupKey [] l x hx with h | h
    · simp at h
    · exact h
  · exact drop_dup_go_eq_self dedupKey [] _ (drop_dup_go_pairwise _ _ _)
      (by intro x hx; simp)

/-- Witness for the C9 theorem: a three-row list with one duplicated key. -/
theorem claim_C9_witness :
    (drop_duplicates dedupKey [wRow, wRow, wRow2]).Sublist [wRow, wRow, wRow2]
    ∧ (drop_duplicates dedupKey [wRow, wRow, wRow2]).Pairwise
        (fun a b => dedupKey a ≠ dedupKey b)
    ∧ (∀ y ∈ drop_duplicates dedupKey [wRow, wRow, wRow2],
        [wRow, wRow, wRow2].find? (fun a => decide (dedupKey a = dedupKey y)) = some y)
    ∧ (∀ x ∈ [wRow, wRow, wRow2],
        ∃ y ∈ drop_duplicates dedupKey [wRow, wRow, wRow2],
          dedupKey y = dedupKey x)
    ∧ drop_duplicates dedupKey (drop_duplicates dedupKey [wRow, wRow, wRow2])
        = drop_duplicates dedupKey [wRow, wRow, wRow2] :=
  claim_C9 [wRow, wRow, wRow2]

/-- C10 (confirmed): store_in_supabase ignores the prior table contents
(full clear), inserts the tuples one by one with fresh sequential
identifiers 1..k in input order up to the first failing insert, and
returns normally in every case (all exceptions are caught internally): the
persisted state is exactly the prefix before the first failure, with no
error signalled to the caller. -/
theorem claim_C10 (insertFails : ℕ → Bool) (db : List StoredRow)
    (data : List DataTuple) :
    store_in_supabase insertFails db data
        = store_in_supabase insertFails [] data
    ∧ ∃ k, k ≤ data.length
        ∧ (store_in_supabase insertFails db data).map (fun s => s.id)
            = List.range' 1 k
        ∧ (store_in_supabase insertFails db data).map storedPayload
            = data.take k
        ∧ (∀ i < k, insertFails i = false)
        ∧ (k < data.length → insertFails k = true) := by
  refine ⟨rfl, ?_⟩
  obtain ⟨k, hk, hid, hpay, hok, hfail⟩ := store_loop_spec insertFails data 0 []
  refine ⟨k, hk, ?_, ?_, ?_, ?_⟩
  · unfold store_in_supabase
    rw [hid]
    simp
  · unfold store_in_supabase
    rw [hpay]
    simp
  · intro i hi
    have h2 := hok i hi
    simpa using h2
  · intro h
    have h2 := hfail h
    simpa using h2

/-- Witness for the C10 theorem: a non-empty prior table, three tuples,
and an insert oracle failing on the second insert. -/
theorem claim_C10_witness :
    store_in_supabase wFailsAt1 [mkStored 7 wTuple] [wTuple, wTuple, wTuple]
        = store_in_supabase wFailsAt1 [] [wTuple, wTuple, wTuple]
    ∧ ∃ k, k ≤ ([wTuple, wTuple, wTuple] : List DataTuple).length
        ∧ (store_in_supabase wFailsAt1 [mkStored 7 wTuple]
              [wTuple, wTuple, wTuple]).map (fun s => s.id)
            = List.range' 1 k
        ∧ (store_in_supabase wFailsAt1 [mkStored 7 wTuple]
              [wTuple, wTuple, wTuple]).map storedPayload
            = ([wTuple, wTuple, wTuple] : List DataTuple).take k
        ∧ (∀ i < k, wFailsAt1 i = false)
        ∧ (k < ([wTuple, wTuple, wTuple] : List DataTuple).length
            → wFailsAt1 k = true) :=
  claim_C10 wFailsAt1 [mkStored 7 wTuple] [wTuple, wTuple, wTuple]
